import Mathlib

/-!
Verification development for the Camos AI Assistant repository.

The repository is a Streamlit chat assistant combining a RAG pipeline over
ingested PDF documentation (src/data_ingestor.py, src/rag_pipeline.py) with a
spreadsheet-backed FAQ board (app.py).  This file gives a shallow embedding of
the data model and the operations of those modules and proves the stated
properties about them.  Python exceptions are modelled with `Except`; the
outside world (file system, OCR engine, table extractor, LLM endpoint) is
passed in as explicit data, so every definition is executable.
-/

/-- Model of Python `str.endswith`: suffix test on the character sequence. -/
def endswith (s sfx : String) : Bool := sfx.data.isSuffixOf s.data

/-- Model of Python `str.strip`: drop whitespace from both ends. -/
def strip (s : String) : String :=
  String.mk (((s.data.dropWhile Char.isWhitespace).reverse.dropWhile Char.isWhitespace).reverse)

/-- The `type` metadata attached to a produced chunk record
(`"text"` body text from PyMuPDFLoader is modelled as `body_text`). -/
inductive DocType where
  | body_text
  | image_ocr
  | table_data
deriving DecidableEq

/-- A LangChain `Document`: page content plus the metadata fields this
repository writes (`source`, `page`, `type`, and the per-kind index
`image_index` / `table_index`). -/
structure Doc where
  page_content : String
  source : String
  page : Nat
  type : DocType
  extract_index : Option Nat
deriving DecidableEq

/-!
## Text splitter

Modelled from the spec: the repository delegates chunking to LangChain's
`RecursiveCharacterTextSplitter(chunk_size, chunk_overlap, length_function=len)`,
whose code is not part of this repository.  Following the spec's description
("split concatenated text into overlapping fixed-size windows
(character-length based)"), the splitter is modelled as fixed-size windows of
`chunk_size` characters advancing by `chunk_size - chunk_overlap` characters.
The fuel argument (initialised to the text length) only forces termination.
-/

/-- Fuel-indexed window splitter: emit a `chunk_size` window and recurse on the
text minus the first `chunk_size - chunk_overlap` characters, until the
remaining text fits in one window. -/
def splitWindowsFuel (chunk_size chunk_overlap : Nat) : Nat → List Char → List (List Char)
  | 0, l => [l]
  | fuel + 1, l =>
    if chunk_size < l.length then
      l.take chunk_size ::
        splitWindowsFuel chunk_size chunk_overlap fuel (l.drop (chunk_size - chunk_overlap))
    else [l]

/-- Modelled from the spec: character-window splitting of one text. -/
def splitWindows (chunk_size chunk_overlap : Nat) (l : List Char) : List (List Char) :=
  splitWindowsFuel chunk_size chunk_overlap l.length l

/-- Split a string into overlapping character windows. -/
def split_text (chunk_size chunk_overlap : Nat) (s : String) : List String :=
  (splitWindows chunk_size chunk_overlap s.data).map String.mk

/-- Model of `text_splitter.split_documents`: split every document's
`page_content`, each chunk inheriting the originating document's metadata. -/
def split_documents (chunk_size chunk_overlap : Nat) (docs : List Doc) : List Doc :=
  docs.flatMap (fun d =>
    (split_text chunk_size chunk_overlap d.page_content).map
      (fun c => { d with page_content := c }))

/-!
## Document ingestor (src/data_ingestor.py)

The PDF world is passed in as data: a `PdfFile` records what `fitz.open`
(pages with their embedded images), `PyMuPDFLoader.load` (body-text documents)
and `camelot.read_pdf` (tables) would yield for that file, each wrapped in
`Except` because each of those calls can raise.
-/

/-- One embedded image of a PDF page: its format extension and what
`pytesseract.image_to_string` would return on its bytes (`Except.error` when
the OCR engine raises). -/
structure ImgRec where
  ext : String
  ocr : Except String String

/-- One PDF file as seen by the three extraction libraries. -/
structure PdfFile where
  pages : Except String (List (List ImgRec))
  loader : Except String (List Doc)
  tables : Except String (List (Nat × String))

/-- An entry of the source directory: a regular file with its PDF payload, or
a subdirectory with its own entries (which `os.listdir` does not recurse
into). -/
inductive Entry where
  | file (name : String) (pdf : PdfFile)
  | dir (name : String) (entries : List Entry)

/-- Name of a directory entry, as `os.listdir` reports it. -/
def Entry.name : Entry → String
  | .file n _ => n
  | .dir n _ => n

/-- Embedding of `extract_text_from_image_ocr`: an OCR engine error is caught
and converted to the empty string. -/
def extract_text_from_image_ocr (ocrResult : Except String String) : String :=
  match ocrResult with
  | .ok text => text
  | .error _ => ""

/-- The chunk record one embedded image contributes (loop body of the OCR
stage of `extract_additional_content_from_pdf`): only `png`/`jpeg`/`jpg`
images whose OCR text is non-blank yield a record. -/
def imageDoc (filename : String) (page_num img_index : Nat) (img : ImgRec) : List Doc :=
  if img.ext = "png" ∨ img.ext = "jpeg" ∨ img.ext = "jpg" then
    let text := extract_text_from_image_ocr img.ocr
    if strip text ≠ "" then
      [{ page_content := "Image content from page " ++ toString (page_num + 1) ++ ":\n" ++ text,
         source := filename, page := page_num + 1, type := .image_ocr,
         extract_index := some (img_index + 1) }]
    else []
  else []

/-- The OCR stage: iterate the pages and each page's image list. -/
def ocrDocsOfPages (filename : String) (pages : List (List ImgRec)) : List Doc :=
  pages.enum.flatMap (fun pg =>
    pg.2.enum.flatMap (fun ii => imageDoc filename pg.1 ii.1 ii.2))

/-- The table stage: one markdown chunk record per table found by camelot. -/
def tableDocsOf (filename : String) (tables : List (Nat × String)) : List Doc :=
  tables.enum.map (fun tb =>
    { page_content := "Table " ++ toString (tb.1 + 1) ++ " from page " ++ toString tb.2.1
        ++ ":\n\n" ++ tb.2.2,
      source := filename, page := tb.2.1, type := .table_data,
      extract_index := some (tb.1 + 1) })

/-- Embedding of `extract_additional_content_from_pdf`: the whole body runs in
one `try`, accumulating into `additional_docs`.  `filename_base` is assigned
only after `fitz.open` succeeds, yet the `except` handler formats it into its
log line, so when `fitz.open` raises the handler itself raises
`UnboundLocalError`, which escapes this function (the `Except.error` case);
for a later failure (camelot) the handler runs fine and the OCR records
accumulated before it are returned. -/
def extract_additional_content_from_pdf (filename : String) (pdf : PdfFile) :
    Except String (List Doc) :=
  match pdf.pages with
  | .error _ =>
    .error "UnboundLocalError: local variable \x27filename_base\x27 referenced before assignment"
  | .ok pages =>
    let ocrDocs := ocrDocsOfPages filename pages
    match pdf.tables with
    | .error _ => .ok ocrDocs
    | .ok tables => .ok (ocrDocs ++ tableDocsOf filename tables)

/-- Body of the per-file loop of `load_and_process_camos_docs`, including its
`try`/`except`: a loader failure (or a directory posing as a `.pdf` file,
which `PyMuPDFLoader` cannot open) skips the whole entry, and so does the
`UnboundLocalError` escaping `extract_additional_content_from_pdf` after a
`fitz.open` failure; otherwise body text and additional content are combined
and chunked. -/
def processEntry (chunk_size chunk_overlap : Nat) : Entry → List Doc
  | .dir _ _ => []
  | .file name pdf =>
    match pdf.loader with
    | .error _ => []
    | .ok docs =>
      match extract_additional_content_from_pdf name pdf with
      | .error _ => []
      | .ok additional => split_documents chunk_size chunk_overlap (docs ++ additional)

/-- Embedding of `load_and_process_camos_docs`: select the directory entries
whose name ends in `".pdf"` and process each in turn. -/
def load_and_process_camos_docs (pdf_dir : List Entry) (chunk_size chunk_overlap : Nat) :
    List Doc :=
  (pdf_dir.filter (fun f => endswith f.name ".pdf")).flatMap
    (processEntry chunk_size chunk_overlap)

/-!
## Vector store builder/loader (src/data_ingestor.py)

Disk writes are made explicit: `create_and_save_vector_store` returns the list
of (path, store) writes it performs next to its Python return value.
-/

/-- A FAISS vector store: the stored chunk records and their embedding
vectors. -/
structure VectorStore where
  docs : List Doc
  vectors : List (List Int)
deriving DecidableEq

/-- Modelled from the spec: `FAISS.from_documents` computes one embedding
vector per chunk record and packs records and vectors into an index. -/
def FAISS_from_documents (embed : String → List Int) (documents : List Doc) : VectorStore :=
  { docs := documents, vectors := documents.map (fun d => embed d.page_content) }

/-- Embedding of `create_and_save_vector_store`.  `embedModel` stands for
`SentenceTransformerEmbeddings(model_name, model_kwargs)`, selecting the
embedding function from the model identifier and options.  The second
component of the result lists the disk writes (`save_local`) performed. -/
def create_and_save_vector_store
    (embedModel : String → List (String × String) → String → List Int)
    (documents : List Doc) (embedding_model_name : String)
    (embedding_model_kwargs : List (String × String)) (vector_store_path : String) :
    Option VectorStore × List (String × VectorStore) :=
  if documents.isEmpty then (none, [])
  else
    let embeddings := embedModel embedding_model_name embedding_model_kwargs
    let vectorstore := FAISS_from_documents embeddings documents
    (some vectorstore, [(vector_store_path, vectorstore)])

/-- The file system as the ingestor sees it: per path, `none` when the path
does not exist, otherwise the directory listing. -/
structure FileSystem where
  dirs : String → Option (List String)

/-- Model of `os.path.exists`. -/
def os_path_exists (fs : FileSystem) (p : String) : Bool := (fs.dirs p).isSome

/-- Model of `os.listdir` (on an existing directory). -/
def os_listdir (fs : FileSystem) (p : String) : List String := (fs.dirs p).getD []

/-- Embedding of `load_vector_store`: return `None` when the path does not
exist, otherwise deserialize.  `deserialize` stands for
`FAISS.load_local(path, SentenceTransformerEmbeddings(name, kwargs))`, a total
function of the model identifier, the model options and the path, abstracting
the opaque on-disk index content. -/
def load_vector_store
    (deserialize : String → List (String × String) → String → VectorStore)
    (fs : FileSystem) (embedding_model_name : String)
    (embedding_model_kwargs : List (String × String)) (vector_store_path : String) :
    Option VectorStore :=
  if os_path_exists fs vector_store_path then
    some (deserialize embedding_model_name embedding_model_kwargs vector_store_path)
  else none

/-!
## Retrieval pipeline (src/rag_pipeline.py)

The pipeline is embedded as the state `CamosRAGPipeline.__init__` leaves
behind: the configuration, the two prompt templates (as the total functions a
well-formed two-placeholder template denotes under `str.format`), the LLM
client (an `Except`-valued function, `Except.error` when `llm.invoke` raises)
and the optional retriever (absent when no vector store was loaded).  The
external calls an operation performs are returned as an explicit `Call`
trace.
-/

/-- Configuration keys the pipeline reads. -/
structure RAGConfig where
  embedding_model_name : String
  embedding_model_kwargs : List (String × String)
  vector_store_path : String
  ollama_base_url : String
  ollama_model_name : String

/-- Embedding of `CamosRAGPipeline._load_or_recreate_vector_store`: load only
when the configured path exists and its listing is non-empty. -/
def load_or_recreate_vector_store
    (deserialize : String → List (String × String) → String → VectorStore)
    (fs : FileSystem) (config : RAGConfig) : Option VectorStore :=
  if os_path_exists fs config.vector_store_path
      ∧ 0 < (os_listdir fs config.vector_store_path).length then
    load_vector_store deserialize fs config.embedding_model_name
      config.embedding_model_kwargs config.vector_store_path
  else none

/-- An external call made by a pipeline operation: a vector-index similarity
search or an LLM invocation with the given prompt. -/
inductive Call where
  | retrieval (query : String)
  | llm (prompt : String)
deriving DecidableEq

/-- The pipeline state after `__init__`. -/
structure CamosRAGPipeline where
  config : RAGConfig
  rag_template : String → String → String
  debug_template : String → String → String
  llm : String → Except String String
  retriever : Option (String → Except String (List Doc))

/-- Modelled from the spec: invoking the `RetrievalQA` "stuff" chain built by
`_initialize_qa_chain` — retrieve, fill the RAG template with the joined
retrieved text and the question, invoke the LLM once — recording the external
calls made; either library call can raise. -/
def run_stuff_chain (p : CamosRAGPipeline)
    (retrieve : String → Except String (List Doc)) (question : String) :
    Except String String × List Call :=
  match retrieve question with
  | .error e => (.error e, [.retrieval question])
  | .ok docs =>
    let prompt := p.rag_template
      (String.intercalate "\n\n" (docs.map (fun d => d.page_content))) question
    match p.llm prompt with
    | .error e => (.error e, [.retrieval question, .llm prompt])
    | .ok answer => (.ok answer, [.retrieval question, .llm prompt])

/-- Embedding of `_initialize_qa_chain`: `None` without a retriever,
otherwise the invokable chain. -/
def qa_chain (p : CamosRAGPipeline) :
    Option (String → Except String String × List Call) :=
  match p.retriever with
  | none => none
  | some retrieve => some (run_stuff_chain p retrieve)

/-- The fixed message `query_rag` returns when no QA chain was constructed. -/
def ragNotReadyMsg : String :=
  "RAG system not ready. Please ensure data has been ingested."

/-- The error string `query_rag` builds from a caught exception text. -/
def ragErrorMsg (p : CamosRAGPipeline) (e : String) : String :=
  "An error occurred during AI processing: " ++ e
    ++ ". Please ensure Ollama server is running and the model \x27"
    ++ p.config.ollama_model_name ++ "\x27 is pulled."

/-- Embedding of `CamosRAGPipeline.query_rag` together with the external calls
it performs. -/
def query_rag (p : CamosRAGPipeline) (question : String) : String × List Call :=
  match qa_chain p with
  | none => (ragNotReadyMsg, [])
  | some chain =>
    match chain question with
    | (.ok result, calls) => (result, calls)
    | (.error e, calls) => (ragErrorMsg p e, calls)

/-- The error string `debug_code` builds from a caught exception text. -/
def debugErrorMsg (p : CamosRAGPipeline) (e : String) : String :=
  "An error occurred during code debugging: " ++ e
    ++ ". Please ensure Ollama server is running and the model \x27"
    ++ p.config.ollama_model_name ++ "\x27 is pulled."

/-- Embedding of `CamosRAGPipeline.debug_code`: fill the debug template with
the two inputs and invoke the LLM directly, catching an invocation failure. -/
def debug_code (p : CamosRAGPipeline) (code_snippet error_message : String) :
    String × List Call :=
  let debug_prompt := p.debug_template code_snippet error_message
  match p.llm debug_prompt with
  | .ok response => (response, [.llm debug_prompt])
  | .error e => (debugErrorMsg p e, [.llm debug_prompt])

/-!
## Application shell stores (app.py)

The spreadsheet-backed FAQ and pending-question stores are embedded as
in-memory lists (a successful `save_data_to_excel` replaces the file with the
data frame, so the stores after a round trip are exactly these lists).
-/

/-- The `st.session_state.user_data` record set at login. -/
structure UserData where
  name : String
  email : String
  experience_level : String
deriving DecidableEq

/-- A row of the pending-questions spreadsheet. -/
structure PendingQuestion where
  id : String
  question : String
  timestamp : Nat
  asked_by : String
deriving DecidableEq

/-- A row of the FAQ spreadsheet. -/
structure FAQEntry where
  id : String
  question : String
  answer : String
  timestamp : Nat
  created_by : String
deriving DecidableEq

/-- The two spreadsheet stores. -/
structure Stores where
  faqs : List FAQEntry
  pending : List PendingQuestion
deriving DecidableEq

/-- Embedding of `CAN_ANSWER_QUESTION`: the session user's experience level is
in `["3-5yr", "6yr and above"]`. -/
def CAN_ANSWER_QUESTION (user : UserData) : Bool :=
  ["3-5yr", "6yr and above"].contains user.experience_level

/-- Embedding of the "Submit a New Question" form handler: a non-empty
question is prepended to the pending store. -/
def submit_question (user : UserData) (stores : Stores) (q : String)
    (now : Nat) (freshId : String) : Stores :=
  if q ≠ "" then
    { stores with pending :=
        { id := freshId, question := strip q, timestamp := now,
          asked_by := user.name } :: stores.pending }
  else stores

/-- Embedding of the answer-form handler for the pending question at position
`idx` (app.py lines 265-291): the form only exists when
`CAN_ANSWER_QUESTION`; a submitted non-empty answer prepends a new FAQ row
(question and id taken from the pending row, `created_by` from the session
user) and drops the pending row. -/
def submit_answer (user : UserData) (stores : Stores) (idx : Nat)
    (answer : String) (now : Nat) : Stores :=
  if CAN_ANSWER_QUESTION user then
    match stores.pending.get? idx with
    | none => stores
    | some pending_q =>
      if answer ≠ "" then
        { faqs :=
            { id := pending_q.id, question := pending_q.question,
              answer := strip answer, timestamp := now,
              created_by := user.name } :: stores.faqs,
          pending := stores.pending.eraseIdx idx }
      else stores
  else stores

/-!
## Stated behaviours and concrete fixtures
-/

/-- Behaviour of `query_rag` once a QA chain was constructed: a retrieval or
LLM failure yields the descriptive error string (which embeds the caught
error text) instead of an exception, a success yields the LLM's text, and in
every case exactly the performed calls are traced. -/
def QueryRagSpec (p : CamosRAGPipeline)
    (retrieve : String → Except String (List Doc)) (question : String) : Prop :=
  (∀ e, retrieve question = .error e →
      query_rag p question = (ragErrorMsg p e, [Call.retrieval question]) ∧
      ∃ s1 s2, ragErrorMsg p e = s1 ++ e ++ s2) ∧
  (∀ docs, retrieve question = .ok docs →
    (∀ e, p.llm (p.rag_template
          (String.intercalate "\n\n" (docs.map (fun d => d.page_content))) question)
            = .error e →
        (query_rag p question).1 = ragErrorMsg p e ∧
        ∃ s1 s2, ragErrorMsg p e = s1 ++ e ++ s2) ∧
    (∀ answer, p.llm (p.rag_template
          (String.intercalate "\n\n" (docs.map (fun d => d.page_content))) question)
            = .ok answer →
        (query_rag p question).1 = answer))

/-- Behaviour of `debug_code`: the single external call is one LLM invocation
on the debug template filled with the two inputs (never a retrieval); a
success returns the LLM text and a failure the descriptive error string
embedding the caught error text. -/
def DebugCodeSpec (p : CamosRAGPipeline) (code_snippet error_message : String) : Prop :=
  (debug_code p code_snippet error_message).2
      = [Call.llm (p.debug_template code_snippet error_message)] ∧
  (∀ q, Call.retrieval q ∉ (debug_code p code_snippet error_message).2) ∧
  (∀ r, p.llm (p.debug_template code_snippet error_message) = .ok r →
      (debug_code p code_snippet error_message).1 = r) ∧
  (∀ e, p.llm (p.debug_template code_snippet error_message) = .error e →
      (debug_code p code_snippet error_message).1 = debugErrorMsg p e ∧
      ∃ s1 s2, debugErrorMsg p e = s1 ++ e ++ s2)

/-- Fixture: the configuration used for concrete evaluations. -/
def testConfig : RAGConfig :=
  { embedding_model_name := "sentence-transformers/all-MiniLM-L6-v2",
    embedding_model_kwargs := [("device", "cpu")],
    vector_store_path := "data/faiss_index",
    ollama_base_url := "http://localhost:11434",
    ollama_model_name := "mistral" }

/-- Fixture: one body-text chunk record. -/
def testDoc : Doc :=
  { page_content := "Camos case statement syntax", source := "camos_manual.pdf",
    page := 1, type := .body_text, extract_index := none }

/-- Fixture: a retriever that finds `testDoc`. -/
def testRetriever : String → Except String (List Doc) := fun _ => .ok [testDoc]

/-- Fixture: a retriever whose similarity search raises. -/
def failingRetriever : String → Except String (List Doc) :=
  fun _ => .error "connection refused"

/-- Fixture: a pipeline with a loaded index and a healthy LLM. -/
def testPipe : CamosRAGPipeline :=
  { config := testConfig,
    rag_template := fun ctx q => "Context: " ++ ctx ++ "\nQuestion: " ++ q,
    debug_template := fun c e => "Code: " ++ c ++ "\nError: " ++ e,
    llm := fun prompt => .ok ("answer to " ++ prompt),
    retriever := some testRetriever }

/-- Fixture: the same pipeline constructed without a vector store. -/
def notReadyPipe : CamosRAGPipeline := { testPipe with retriever := none }

/-- Fixture: the pipeline when every `llm.invoke` raises. -/
def downLlmPipe : CamosRAGPipeline :=
  { testPipe with llm := fun _ => .error "Ollama call failed" }

/-- Fixture: a PDF whose `PyMuPDFLoader.load` raises (corrupt file). -/
def brokenPdf : PdfFile :=
  { pages := .ok [], loader := .error "cannot open broken.pdf", tables := .ok [] }

/-- Fixture: body text of the table-failure PDF. -/
def tfDocs : List Doc :=
  [{ page_content := "page one text", source := "tables.pdf", page := 1,
     type := .body_text, extract_index := none }]

/-- Fixture: the image lists per page of the table-failure PDF. -/
def tfPages : List (List ImgRec) := [[{ ext := "png", ocr := .ok "diagram label" }]]

/-- Fixture: a PDF where `camelot.read_pdf` raises but text and OCR work. -/
def tableFailPdf : PdfFile :=
  { pages := .ok tfPages, loader := .ok tfDocs, tables := .error "camelot failed" }

/-- Fixture: an image on which the OCR engine raises. -/
def badImg : ImgRec := { ext := "png", ocr := .error "tesseract failed" }

/-- Fixture: a PDF whose body text loads but whose `fitz.open` raises. -/
def fitzFailPdf : PdfFile :=
  { pages := .error "fitz cannot open scanned.pdf", loader := .ok tfDocs, tables := .ok [] }

/-- Fixture: a healthy one-page PDF. -/
def goodPdf : PdfFile :=
  { pages := .ok [], loader := .ok tfDocs, tables := .ok [] }

/-- Fixture: a file system with no entry at all. -/
def emptyFS : FileSystem := { dirs := fun _ => none }

/-- Fixture: a file system holding a populated index directory. -/
def fullFS : FileSystem :=
  { dirs := fun p =>
      if p = "data/faiss_index" then some ["index.faiss", "index.pkl"] else none }

/-- Fixture: a deserializer returning a one-record store. -/
def testDeserialize : String → List (String × String) → String → VectorStore :=
  fun _ _ _ => { docs := [testDoc], vectors := [[1, 0]] }

/-- Fixture: an embedding model family for concrete evaluations. -/
def testEmbedModel : String → List (String × String) → String → List Int :=
  fun _ _ s => [Int.ofNat s.length]

/-- Fixture: the session user answering questions (3-5yr experience). -/
def testAnswerer : UserData := { name := "Bob", email := "bob@x.com", experience_level := "3-5yr" }

/-- Fixture: a junior session user (0-2yr experience). -/
def juniorUser : UserData := { name := "Eve", email := "eve@x.com", experience_level := "0-2yr" }

/-- Fixture: one pending question. -/
def testPending : PendingQuestion :=
  { id := "42", question := "How do I write a case statement?", timestamp := 5,
    asked_by := "Alice" }

/-- Fixture: stores with one pending question and no FAQ yet. -/
def testStores : Stores := { faqs := [], pending := [testPending] }

/-!
## Lemmas and claim theorems
-/

/-- Every window the fuel splitter emits has at most `chunk_size` characters,
provided the overlap is smaller than the size. -/
theorem splitWindowsFuel_length_le (S O : Nat) (hO : O < S) :
    ∀ (fuel : Nat) (l : List Char), l.length ≤ fuel →
      ∀ c ∈ splitWindowsFuel S O fuel l, c.length ≤ S := by
  intro fuel
  induction fuel with
  | zero =>
    intro l hl c hc
    simp only [splitWindowsFuel, List.mem_singleton] at hc
    subst hc
    omega
  | succ n ih =>
    intro l hl c hc
    simp only [splitWindowsFuel] at hc
    by_cases h : S < l.length
    · rw [if_pos h] at hc
      rcases List.mem_cons.mp hc with hc | hc
      · subst hc
        simp [List.length_take]
      · refine ih _ ?_ c hc
        simp only [List.length_drop]
        omega
    · rw [if_neg h] at hc
      simp only [List.mem_singleton] at hc
      subst hc
      omega

/-- The first window the fuel splitter emits starts with the same `O`
characters as the input text, and is longer than `O` whenever the text is. -/
theorem splitWindowsFuel_head (S O : Nat) (hO : O < S) (fuel : Nat) (l : List Char) :
    ∃ c, (splitWindowsFuel S O fuel l).head? = some c ∧
      c.take O = l.take O ∧ (O < l.length → O ≤ c.length) := by
  cases fuel with
  | zero => exact ⟨l, rfl, rfl, fun h => Nat.le_of_lt h⟩
  | succ n =>
    by_cases h : S < l.length
    · refine ⟨l.take S, ?_, ?_, ?_⟩
      · simp only [splitWindowsFuel]
        rw [if_pos h]
        rfl
      · rw [List.take_take]
        congr 1
        omega
      · intro hOl
        simp only [List.length_take]
        omega
    · refine ⟨l, ?_, rfl, fun hl => Nat.le_of_lt hl⟩
      simp only [splitWindowsFuel]
      rw [if_neg h]
      rfl

/-- Consecutive windows of the fuel splitter overlap by exactly `O`
characters: each non-final window is exactly `S` long, its last `O`
characters are the next window's first `O` characters, and the next window
has at least `O` characters. -/
theorem splitWindowsFuel_chain (S O : Nat) (hO : O < S) :
    ∀ (fuel : Nat) (l : List Char), l.length ≤ fuel →
      List.Chain'
        (fun c c2 => c.length = S ∧ c.drop (S - O) = c2.take O ∧ O ≤ c2.length)
        (splitWindowsFuel S O fuel l) := by
  intro fuel
  induction fuel with
  | zero => intro l hl; simp [splitWindowsFuel]
  | succ n ih =>
    intro l hl
    simp only [splitWindowsFuel]
    by_cases h : S < l.length
    · rw [if_pos h]
      rw [List.chain'_cons']
      constructor
      · intro c2 hc2
        obtain ⟨c, hc, hctake, hclen⟩ := splitWindowsFuel_head S O hO n (l.drop (S - O))
        rw [hc, Option.mem_some_iff] at hc2
        subst hc2
        refine ⟨?_, ?_, ?_⟩
        · simp only [List.length_take]
          omega
        · rw [List.drop_take]
          rw [show S - (S - O) = O by omega]
          exact hctake.symm
        · refine hclen ?_
          simp only [List.length_drop]
          omega
      · refine ih _ ?_
        simp only [List.length_drop]
        omega
    · rw [if_neg h]
      simp

/-- C5: for all chunk sizes `S` and overlaps `O` with `O < S`, splitting a
text produces chunks of character length at most `S`, and every pair of
consecutive chunks overlaps by exactly `O` characters (each non-final chunk
is exactly `S` long and shares its last `O` characters with the following
chunk's first `O` characters), the final chunk alone being allowed to be
shorter than `S`. -/
theorem c5_chunk_size_and_overlap (S O : Nat) (l : List Char) (hO : O < S) :
    (∀ c ∈ splitWindows S O l, c.length ≤ S) ∧
    List.Chain'
      (fun c c2 => c.length = S ∧ c.drop (S - O) = c2.take O ∧ O ≤ c2.length)
      (splitWindows S O l) :=
  ⟨splitWindowsFuel_length_le S O hO l.length l Nat.le.refl,
   splitWindowsFuel_chain S O hO l.length l Nat.le.refl⟩

/-- Witness for C5 at `S = 3`, `O = 1` on the five-character text "abcde". -/
theorem c5_witness :
    1 < 3 ∧
    ((∀ c ∈ splitWindows 3 1 "abcde".data, c.length ≤ 3) ∧
      List.Chain'
        (fun c c2 => c.length = 3 ∧ c.drop (3 - 1) = c2.take 1 ∧ 1 ≤ c2.length)
        (splitWindows 3 1 "abcde".data)) :=
  ⟨by decide, c5_chunk_size_and_overlap 3 1 "abcde".data (by decide)⟩

/-- The query error string visibly embeds the caught error text. -/
theorem ragErrorMsg_embeds (p : CamosRAGPipeline) (e : String) :
    ∃ s1 s2, ragErrorMsg p e = s1 ++ e ++ s2 := by
  refine ⟨"An error occurred during AI processing: ",
    ". Please ensure Ollama server is running and the model \x27"
      ++ p.config.ollama_model_name ++ "\x27 is pulled.", ?_⟩
  simp [ragErrorMsg, String.append_assoc]

/-- The debug error string visibly embeds the caught error text. -/
theorem debugErrorMsg_embeds (p : CamosRAGPipeline) (e : String) :
    ∃ s1 s2, debugErrorMsg p e = s1 ++ e ++ s2 := by
  refine ⟨"An error occurred during code debugging: ",
    ". Please ensure Ollama server is running and the model \x27"
      ++ p.config.ollama_model_name ++ "\x27 is pulled.", ?_⟩
  simp [debugErrorMsg, String.append_assoc]

/-- C1: once a QA chain was constructed, `query_rag` never propagates an
exception — a retrieval or LLM failure is returned as the descriptive error
string embedding the caught error's text, and a success returns the LLM's
text response. -/
theorem c1_query_rag_failure_to_string (p : CamosRAGPipeline)
    (retrieve : String → Except String (List Doc)) (question : String)
    (hready : p.retriever = some retrieve) :
    QueryRagSpec p retrieve question := by
  have hq : qa_chain p = some (run_stuff_chain p retrieve) := by
    rw [qa_chain, hready]
  constructor
  · intro e he
    refine ⟨?_, ragErrorMsg_embeds p e⟩
    rw [query_rag, hq]
    simp only [run_stuff_chain, he]
  · intro docs hdocs
    constructor
    · intro e he
      refine ⟨?_, ragErrorMsg_embeds p e⟩
      rw [query_rag, hq]
      simp only [run_stuff_chain, hdocs, he]
    · intro answer ha
      rw [query_rag, hq]
      simp only [run_stuff_chain, hdocs, ha]

/-- Witness for C1 on the concrete ready pipeline. -/
theorem c1_witness :
    testPipe.retriever = some testRetriever ∧ QueryRagSpec testPipe testRetriever "q" :=
  ⟨rfl, c1_query_rag_failure_to_string testPipe testRetriever "q" rfl⟩

/-- C2: `debug_code` fills the debug template with the two inputs, makes one
direct LLM invocation (no retrieval, no vector-index consultation), and
converts an invocation failure to the descriptive error string embedding the
caught error's text instead of propagating it. -/
theorem c2_debug_code_direct_llm (p : CamosRAGPipeline)
    (code_snippet error_message : String) :
    DebugCodeSpec p code_snippet error_message := by
  cases hl : p.llm (p.debug_template code_snippet error_message) with
  | error e =>
    refine ⟨?_, ?_, ?_, ?_⟩
    · simp [debug_code, hl]
    · intro q
      simp [debug_code, hl]
    · intro r hr
      rw [hl] at hr
      simp at hr
    · intro e2 he2
      rw [hl] at he2
      simp only [Except.error.injEq] at he2
      subst he2
      exact ⟨by simp [debug_code, hl], debugErrorMsg_embeds p e⟩
  | ok r =>
    refine ⟨?_, ?_, ?_, ?_⟩
    · simp [debug_code, hl]
    · intro q
      simp [debug_code, hl]
    · intro r2 hr2
      rw [hl] at hr2
      simp only [Except.ok.injEq] at hr2
      subst hr2
      simp [debug_code, hl]
    · intro e he
      rw [hl] at he
      simp at he

/-- Witness for C2 on the concrete pipeline whose LLM endpoint is down. -/
theorem c2_witness : DebugCodeSpec downLlmPipe "x = 1" "TypeError" :=
  c2_debug_code_direct_llm downLlmPipe "x = 1" "TypeError"

/-- C7: against a pipeline constructed without a loaded vector index,
`query_rag` returns the fixed not-ready message verbatim and performs no
retrieval and no LLM invocation (its call trace is empty). -/
theorem c7_not_ready_fixed_message (p : CamosRAGPipeline) (question : String)
    (h : p.retriever = none) :
    query_rag p question = (ragNotReadyMsg, []) ∧
    ragNotReadyMsg = "RAG system not ready. Please ensure data has been ingested." := by
  refine ⟨?_, rfl⟩
  rw [query_rag, qa_chain, h]

/-- Witness for C7 on the concrete pipeline without a vector store. -/
theorem c7_witness :
    notReadyPipe.retriever = none ∧
    (query_rag notReadyPipe "What is Camos?" = (ragNotReadyMsg, []) ∧
      ragNotReadyMsg = "RAG system not ready. Please ensure data has been ingested.") :=
  ⟨rfl, c7_not_ready_fixed_message notReadyPipe "What is Camos?" rfl⟩

/-- C3: the vector-store load path returns "not found" (`none`) whenever the
index directory does not exist or exists but is empty, and only when it
exists non-empty deserializes the persisted index and returns a handle. -/
theorem c3_load_not_found
    (deserialize : String → List (String × String) → String → VectorStore)
    (fs : FileSystem) (config : RAGConfig) :
    ((fs.dirs config.vector_store_path = none ∨
        fs.dirs config.vector_store_path = some []) →
      load_or_recreate_vector_store deserialize fs config = none) ∧
    (∀ files, fs.dirs config.vector_store_path = some files → files ≠ [] →
      load_or_recreate_vector_store deserialize fs config =
        some (deserialize config.embedding_model_name config.embedding_model_kwargs
          config.vector_store_path)) := by
  constructor
  · rintro (h | h) <;>
      simp [load_or_recreate_vector_store, os_path_exists, os_listdir, h]
  · intro files hf hne
    have hlen : 0 < files.length := List.length_pos.mpr hne
    simp [load_or_recreate_vector_store, load_vector_store, os_path_exists,
      os_listdir, hf, hlen]

/-- Witness for C3 on a concrete populated index directory. -/
theorem c3_witness :
    fullFS.dirs testConfig.vector_store_path = some ["index.faiss", "index.pkl"] ∧
    (["index.faiss", "index.pkl"] : List String) ≠ [] ∧
    load_or_recreate_vector_store testDeserialize fullFS testConfig =
      some (testDeserialize testConfig.embedding_model_name
        testConfig.embedding_model_kwargs testConfig.vector_store_path) :=
  ⟨rfl, by simp,
    (c3_load_not_found testDeserialize fullFS testConfig).2
      ["index.faiss", "index.pkl"] rfl (by simp)⟩

/-- C6: building a vector store from an empty chunk-record sequence returns
`none` and performs no disk write; from a non-empty sequence it computes one
embedding per record, performs exactly the one write of the index to the
target directory, and returns the handle. -/
theorem c6_create_and_save
    (embedModel : String → List (String × String) → String → List Int)
    (embedding_model_name : String) (embedding_model_kwargs : List (String × String))
    (vector_store_path : String) :
    (∀ documents : List Doc, documents = [] →
      create_and_save_vector_store embedModel documents embedding_model_name
        embedding_model_kwargs vector_store_path = (none, [])) ∧
    (∀ documents : List Doc, documents ≠ [] →
      ∃ vs, create_and_save_vector_store embedModel documents embedding_model_name
          embedding_model_kwargs vector_store_path = (some vs, [(vector_store_path, vs)]) ∧
        vs.docs = documents ∧ vs.vectors.length = documents.length) := by
  constructor
  · intro documents h
    subst h
    rfl
  · intro documents h
    have hne : documents.isEmpty = false := by
      cases documents with
      | nil => exact absurd rfl h
      | cons a t => rfl
    refine ⟨FAISS_from_documents (embedModel embedding_model_name embedding_model_kwargs)
      documents, ?_, rfl, ?_⟩
    · simp [create_and_save_vector_store, hne]
    · simp [FAISS_from_documents]

/-- Witness for C6 on a one-record sequence. -/
theorem c6_witness :
    ([testDoc] : List Doc) ≠ [] ∧
    ∃ vs, create_and_save_vector_store testEmbedModel [testDoc]
        "sentence-transformers/all-MiniLM-L6-v2" [("device", "cpu")] "data/faiss_index"
        = (some vs, [("data/faiss_index", vs)]) ∧
      vs.docs = [testDoc] ∧ vs.vectors.length = ([testDoc] : List Doc).length :=
  ⟨by simp,
    (c6_create_and_save testEmbedModel "sentence-transformers/all-MiniLM-L6-v2"
      [("device", "cpu")] "data/faiss_index").2 [testDoc] (by simp)⟩

/-- C4: ingestion failures are isolated — the batch output splits per entry
(so one failing document never aborts or affects the others); a corrupt file
(loader failure) skips only that document; a table-extraction failure still
yields that document's body-text and OCR records; an OCR engine failure on
one image contributes no record for that image (the surrounding loops
continue).  A `fitz.open` failure — outside the claim's failure kinds, and a
corrupt file hits the loader first — makes the log line of the `except`
handler raise `UnboundLocalError`, which escapes to the per-file handler and
skips that whole document, still without affecting the rest of the batch. -/
theorem c4_failure_isolation (S O : Nat) :
    (∀ (pre post : List Entry) (e : Entry),
      load_and_process_camos_docs (pre ++ e :: post) S O =
        load_and_process_camos_docs pre S O ++ load_and_process_camos_docs [e] S O ++
          load_and_process_camos_docs post S O) ∧
    (∀ (name : String) (pdf : PdfFile) (err : String), pdf.loader = Except.error err →
      processEntry S O (Entry.file name pdf) = []) ∧
    (∀ (name : String) (pdf : PdfFile) (docs : List Doc) (pages : List (List ImgRec))
        (err : String), pdf.loader = Except.ok docs → pdf.pages = Except.ok pages →
      pdf.tables = Except.error err →
      processEntry S O (Entry.file name pdf) =
        split_documents S O (docs ++ ocrDocsOfPages name pages)) ∧
    (∀ (name : String) (pdf : PdfFile) (docs : List Doc) (err : String),
      pdf.loader = Except.ok docs → pdf.pages = Except.error err →
      (∃ msg, extract_additional_content_from_pdf name pdf = Except.error msg) ∧
      processEntry S O (Entry.file name pdf) = []) ∧
    (∀ (filename : String) (page_num img_index : Nat) (img : ImgRec) (err : String),
      img.ocr = Except.error err → imageDoc filename page_num img_index img = []) := by
  refine ⟨?_, ?_, ?_, ?_, ?_⟩
  · intro pre post e
    by_cases he : endswith e.name ".pdf" <;>
      simp [load_and_process_camos_docs, List.filter_append, List.filter_cons, he,
        List.flatMap_append]
  · intro name pdf err h
    simp [processEntry, h]
  · intro name pdf docs pages err h1 h2 h3
    simp [processEntry, h1, extract_additional_content_from_pdf, h2, h3]
  · intro name pdf docs err h1 h2
    constructor
    · refine ⟨"UnboundLocalError: local variable \x27filename_base\x27 referenced before assignment", ?_⟩
      simp [extract_additional_content_from_pdf, h2]
    · simp [processEntry, h1, extract_additional_content_from_pdf, h2]
  · intro filename page_num img_index img err h
    have hs : strip "" = "" := rfl
    simp [imageDoc, h, extract_text_from_image_ocr, hs]

/-- Witness for C4 on a three-document batch with a corrupt middle document, a
camelot failure on the last one, a `fitz.open` failure, and an image whose
OCR raises. -/
theorem c4_witness :
    (load_and_process_camos_docs
        ([Entry.file "a.pdf" goodPdf] ++ Entry.file "broken.pdf" brokenPdf ::
          [Entry.file "tables.pdf" tableFailPdf]) 5 2 =
      load_and_process_camos_docs [Entry.file "a.pdf" goodPdf] 5 2 ++
        load_and_process_camos_docs [Entry.file "broken.pdf" brokenPdf] 5 2 ++
        load_and_process_camos_docs [Entry.file "tables.pdf" tableFailPdf] 5 2) ∧
    processEntry 5 2 (Entry.file "broken.pdf" brokenPdf) = [] ∧
    processEntry 5 2 (Entry.file "tables.pdf" tableFailPdf) =
      split_documents 5 2 (tfDocs ++ ocrDocsOfPages "tables.pdf" tfPages) ∧
    ((∃ msg, extract_additional_content_from_pdf "scanned.pdf" fitzFailPdf
        = Except.error msg) ∧
      processEntry 5 2 (Entry.file "scanned.pdf" fitzFailPdf) = []) ∧
    imageDoc "x.pdf" 0 0 badImg = [] :=
  ⟨(c4_failure_isolation 5 2).1 [Entry.file "a.pdf" goodPdf]
      [Entry.file "tables.pdf" tableFailPdf] (Entry.file "broken.pdf" brokenPdf),
   (c4_failure_isolation 5 2).2.1 "broken.pdf" brokenPdf "cannot open broken.pdf" rfl,
   (c4_failure_isolation 5 2).2.2.1 "tables.pdf" tableFailPdf tfDocs tfPages
      "camelot failed" rfl rfl rfl,
   (c4_failure_isolation 5 2).2.2.2.1 "scanned.pdf" fitzFailPdf tfDocs
      "fitz cannot open scanned.pdf" rfl rfl,
   (c4_failure_isolation 5 2).2.2.2.2 "x.pdf" 0 0 badImg "tesseract failed" rfl⟩

/-- C10: ingestion considers exactly the directory entries whose names end in
the lowercase suffix ".pdf" — an entry with any other name (such as an
uppercase ".PDF") can be removed without changing the output, a subdirectory
entry contributes no chunk records whatever it contains, and the output is
exactly the concatenation over the ".pdf"-named entries. -/
theorem c10_only_lowercase_pdf_entries (S O : Nat) :
    (∀ (pre post : List Entry) (e : Entry), endswith e.name ".pdf" = false →
      load_and_process_camos_docs (pre ++ e :: post) S O =
        load_and_process_camos_docs (pre ++ post) S O) ∧
    (∀ (nm : String) (sub : List Entry), processEntry S O (Entry.dir nm sub) = []) ∧
    (∀ entries : List Entry,
      load_and_process_camos_docs entries S O =
        (entries.filter (fun f => endswith f.name ".pdf")).flatMap (processEntry S O)) := by
  refine ⟨?_, fun nm sub => rfl, fun entries => rfl⟩
  intro pre post e he
  simp [load_and_process_camos_docs, List.filter_append, List.filter_cons, he]

/-- Witness for C10: an uppercase ".PDF" file contributes nothing and a
subdirectory holding a ".pdf" file contributes nothing. -/
theorem c10_witness :
    endswith (Entry.file "Guide.PDF" goodPdf).name ".pdf" = false ∧
    load_and_process_camos_docs
        ([Entry.file "a.pdf" goodPdf] ++ Entry.file "Guide.PDF" goodPdf :: []) 5 2 =
      load_and_process_camos_docs ([Entry.file "a.pdf" goodPdf] ++ []) 5 2 ∧
    processEntry 5 2 (Entry.dir "nested" [Entry.file "inner.pdf" goodPdf]) = [] :=
  ⟨by decide,
   (c10_only_lowercase_pdf_entries 5 2).1 [Entry.file "a.pdf" goodPdf] []
      (Entry.file "Guide.PDF" goodPdf) (by decide),
   (c10_only_lowercase_pdf_entries 5 2).2.1 "nested" [Entry.file "inner.pdf" goodPdf]⟩

/-- C8: a user whose experience level grants answering rights submitting a
non-empty answer to the pending question at `idx` removes exactly that
pending entry and prepends exactly one FAQ row whose `created_by` is the
answering user's name and whose question text is the pending question's
text. -/
theorem c8_answer_moves_to_faq (user : UserData) (stores : Stores) (idx : Nat)
    (answer : String) (now : Nat) (pending_q : PendingQuestion)
    (hexp : user.experience_level = "3-5yr" ∨ user.experience_level = "6yr and above")
    (hget : stores.pending.get? idx = some pending_q) (hans : answer ≠ "") :
    ∃ row : FAQEntry,
      submit_answer user stores idx answer now =
        { faqs := row :: stores.faqs, pending := stores.pending.eraseIdx idx } ∧
      row.created_by = user.name ∧ row.question = pending_q.question ∧
      row.id = pending_q.id := by
  have hcan : CAN_ANSWER_QUESTION user = true := by
    rcases hexp with h | h <;> rw [CAN_ANSWER_QUESTION, h] <;> decide
  rw [List.get?_eq_getElem?] at hget
  refine ⟨⟨pending_q.id, pending_q.question, strip answer, now, user.name⟩, ?_, rfl, rfl, rfl⟩
  simp [submit_answer, hcan, hget, hans]

/-- Witness for C8: Bob (3-5yr) answers Alice's pending question. -/
theorem c8_witness :
    (testAnswerer.experience_level = "3-5yr" ∨
      testAnswerer.experience_level = "6yr and above") ∧
    testStores.pending.get? 0 = some testPending ∧
    ("Use the case keyword." : String) ≠ "" ∧
    ∃ row : FAQEntry,
      submit_answer testAnswerer testStores 0 "Use the case keyword." 9 =
        { faqs := row :: testStores.faqs, pending := testStores.pending.eraseIdx 0 } ∧
      row.created_by = testAnswerer.name ∧ row.question = testPending.question ∧
      row.id = testPending.id :=
  ⟨Or.inl rfl, rfl, by simp,
    c8_answer_moves_to_faq testAnswerer testStores 0 "Use the case keyword." 9 testPending
      (Or.inl rfl) rfl (by simp)⟩

/-- C9: a user with "0-2yr" experience attempting to answer a pending
question is refused — neither the FAQ store nor the pending store changes. -/
theorem c9_junior_refused (user : UserData) (stores : Stores) (idx : Nat)
    (answer : String) (now : Nat) (hexp : user.experience_level = "0-2yr") :
    submit_answer user stores idx answer now = stores := by
  have hcan : CAN_ANSWER_QUESTION user = false := by
    rw [CAN_ANSWER_QUESTION, hexp]
    decide
  simp [submit_answer, hcan]

/-- Witness for C9: Eve (0-2yr) attempts to answer and nothing changes. -/
theorem c9_witness :
    juniorUser.experience_level = "0-2yr" ∧
    submit_answer juniorUser testStores 0 "I think it works like this" 9 = testStores :=
  ⟨rfl, c9_junior_refused juniorUser testStores 0 "I think it works like this" 9 rfl⟩
